import Mathlib

/-!
Shallow embedding of the teradatarustapi binding layer (src/src/lib.rs and
src/src/bin/cmdline.rs).

The native Go-side driver library is an external collaborator: each of its
entry points is modelled by a response record holding exactly the values the
native call writes through its output parameters (an error pointer that is
null on success, plus result fields).  Native-owned buffers are modelled as
a pointer identity together with their text content, so that release calls
can be counted.  Every wrapper is split into

  - a `_body` function: the logic inside the Rust wrapper after the symbol
    lookups succeeded, a pure function from the response to the returned
    `Result` and the list of native calls made (including goFreePointer
    invocations), and
  - a full wrapper of the same name as in the source, which additionally
    models the `CString::new(...).unwrap()` marshalling (panics on interior
    NUL) and the `OnceLock::get().unwrap()` symbol fetch (panics when the
    slot was never published); `none` models a panic.

`load_driver` is embedded as a state transition on an explicit registry
state (the twelve `OnceLock` statics), parameterised by the outcomes of
`Library::new` and of the symbol resolutions.
-/

/-- A native-owned text buffer returned through an output parameter:
the pointer value (identity, used to count release calls) and the text it
holds. -/
structure NativeBuf where
  id : Nat
  content : String
deriving DecidableEq, Repr

/-- One invocation of a native entry point, as observed at the call
boundary, with the argument values actually delivered there. -/
inductive NativeCall where
  | combineJSON (json1 json2 : String)
  | parseParams (params : String)
  | createConnection (log : Nat) (version params : String)
  | closeConnection (log conn : Nat)
  | cancelRequest (log conn : Nat)
  | createRows (log conn : Nat) (requestText bindValues : String)
  | resultMetaData (log rows : Nat)
  | fetchRow (log rows : Nat)
  | nextResult (log rows : Nat)
  | closeRows (log rows : Nat)
  | freePointer (log ptr : Nat)
deriving DecidableEq, Repr

/-- Out-parameters written by goCombineJSON: error pointer and combined
JSON buffer (read only on the success path). -/
structure CombineJSONResp where
  error : Option NativeBuf
  combined : NativeBuf
deriving DecidableEq, Repr

/-- Out-parameters written by goParseParams: error pointer and log handle. -/
structure ParseParamsResp where
  error : Option NativeBuf
  log : Nat
deriving DecidableEq, Repr

/-- Out-parameters written by goCreateConnection. -/
structure CreateConnectionResp where
  error : Option NativeBuf
  connHandle : Nat
deriving DecidableEq, Repr

/-- Out-parameters of the entry points that only report an error pointer:
goCloseConnection, goCancelRequest, goCloseRows. -/
structure ErrorOnlyResp where
  error : Option NativeBuf
deriving DecidableEq, Repr

/-- Out-parameters written by rustgoCreateRows. -/
structure CreateRowsResp where
  error : Option NativeBuf
  rowsHandle : Nat
deriving DecidableEq, Repr

/-- Out-parameters written by rustgoResultMetaData. -/
structure ResultMetaDataResp where
  error : Option NativeBuf
  activityCount : Nat
  activityType : Nat
  activityName : NativeBuf
  columnMetadata : NativeBuf
deriving DecidableEq, Repr

/-- Out-parameters written by rustgoFetchRow: the column-values pointer is
null (`none`) when the current result is exhausted. -/
structure FetchRowResp where
  error : Option NativeBuf
  columnValues : Option NativeBuf
deriving DecidableEq, Repr

/-- Out-parameters written by goNextResult: avail is the written c_char. -/
structure NextResultResp where
  error : Option NativeBuf
  avail : Char
deriving DecidableEq, Repr

/-- Body of go_combine_json_wrapper (lib.rs lines 119-134): on a non-null
error pointer, copy the message, free the error buffer with sentinel log
handle 0 and fail; on success copy and free the combined buffer. -/
def go_combine_json_body (json1 json2 : String) (resp : CombineJSONResp) :
    Except String String × List NativeCall :=
  match resp.error with
  | some b => (Except.error b.content,
      [NativeCall.combineJSON json1 json2, NativeCall.freePointer 0 b.id])
  | none => (Except.ok resp.combined.content,
      [NativeCall.combineJSON json1 json2, NativeCall.freePointer 0 resp.combined.id])

/-- Body of go_parse_params_wrapper (lib.rs lines 144-156): on error, the
error buffer is freed using the log-handle out-parameter value. -/
def go_parse_params_body (params : String) (resp : ParseParamsResp) :
    Except String Nat × List NativeCall :=
  match resp.error with
  | some b => (Except.error b.content,
      [NativeCall.parseParams params, NativeCall.freePointer resp.log b.id])
  | none => (Except.ok resp.log, [NativeCall.parseParams params])

/-- Body of go_create_connection_wrapper (lib.rs lines 169-183). -/
def go_create_connection_body (uLog : Nat) (version params : String)
    (resp : CreateConnectionResp) : Except String Nat × List NativeCall :=
  match resp.error with
  | some b => (Except.error b.content,
      [NativeCall.createConnection uLog version params, NativeCall.freePointer uLog b.id])
  | none => (Except.ok resp.connHandle, [NativeCall.createConnection uLog version params])

/-- Body of go_close_connection_wrapper (lib.rs lines 192-200). -/
def go_close_connection_body (uLog connHandle : Nat) (resp : ErrorOnlyResp) :
    Except String Unit × List NativeCall :=
  match resp.error with
  | some b => (Except.error b.content,
      [NativeCall.closeConnection uLog connHandle, NativeCall.freePointer uLog b.id])
  | none => (Except.ok (), [NativeCall.closeConnection uLog connHandle])

/-- Body of go_cancel_request_wrapper (lib.rs lines 209-217). -/
def go_cancel_request_body (uLog connHandle : Nat) (resp : ErrorOnlyResp) :
    Except String Unit × List NativeCall :=
  match resp.error with
  | some b => (Except.error b.content,
      [NativeCall.cancelRequest uLog connHandle, NativeCall.freePointer uLog b.id])
  | none => (Except.ok (), [NativeCall.cancelRequest uLog connHandle])

/-- Body of rustgo_create_rows_wrapper (lib.rs lines 231-246): the strings
recorded in the createRows call event are the bytes delivered at the native
boundary. -/
def rustgo_create_rows_body (uLog connHandle : Nat) (requestText bindValues : String)
    (resp : CreateRowsResp) : Except String Nat × List NativeCall :=
  match resp.error with
  | some b => (Except.error b.content,
      [NativeCall.createRows uLog connHandle requestText bindValues,
       NativeCall.freePointer uLog b.id])
  | none => (Except.ok resp.rowsHandle,
      [NativeCall.createRows uLog connHandle requestText bindValues])

/-- Body of rustgo_result_metadata_wrapper (lib.rs lines 259-279): on error,
only the error buffer is touched; on success the two text out-buffers are
copied and freed in order. -/
def rustgo_result_metadata_body (uLog rowsHandle : Nat) (resp : ResultMetaDataResp) :
    Except String (Nat × Nat × String × String) × List NativeCall :=
  match resp.error with
  | some b => (Except.error b.content,
      [NativeCall.resultMetaData uLog rowsHandle, NativeCall.freePointer uLog b.id])
  | none => (Except.ok (resp.activityCount, resp.activityType,
        resp.activityName.content, resp.columnMetadata.content),
      [NativeCall.resultMetaData uLog rowsHandle,
       NativeCall.freePointer uLog resp.activityName.id,
       NativeCall.freePointer uLog resp.columnMetadata.id])

/-- Body of rustgo_fetch_row_wrapper (lib.rs lines 289-308): a null
column-values pointer with a null error pointer is the end-of-rows success
value `Except.ok none`. -/
def rustgo_fetch_row_body (uLog rowsHandle : Nat) (resp : FetchRowResp) :
    Except String (Option String) × List NativeCall :=
  match resp.error with
  | some b => (Except.error b.content,
      [NativeCall.fetchRow uLog rowsHandle, NativeCall.freePointer uLog b.id])
  | none =>
    match resp.columnValues with
    | none => (Except.ok none, [NativeCall.fetchRow uLog rowsHandle])
    | some cv => (Except.ok (some cv.content),
        [NativeCall.fetchRow uLog rowsHandle, NativeCall.freePointer uLog cv.id])

/-- Body of go_next_result_wrapper (lib.rs lines 318-331): success decodes
the avail character, true exactly when it is Y. -/
def go_next_result_body (uLog rowsHandle : Nat) (resp : NextResultResp) :
    Except String Bool × List NativeCall :=
  match resp.error with
  | some b => (Except.error b.content,
      [NativeCall.nextResult uLog rowsHandle, NativeCall.freePointer uLog b.id])
  | none => (Except.ok (resp.avail == 'Y'), [NativeCall.nextResult uLog rowsHandle])

/-- Body of go_close_rows_wrapper (lib.rs lines 340-348). -/
def go_close_rows_body (uLog rowsHandle : Nat) (resp : ErrorOnlyResp) :
    Except String Unit × List NativeCall :=
  match resp.error with
  | some b => (Except.error b.content,
      [NativeCall.closeRows uLog rowsHandle, NativeCall.freePointer uLog b.id])
  | none => (Except.ok (), [NativeCall.closeRows uLog rowsHandle])

/-- Platform descriptor: the inputs get_extension reads from the
environment (lib.rs lines 360-365).  fipsFile is the content of
/proc/sys/crypto/fips_enabled, `none` when the file is unreadable. -/
structure Platform where
  osType : String
  cpu : String
  nBits : Nat
  fipsFile : Option String
deriving DecidableEq, Repr

/-- Model of Rust str::to_lowercase, as a structural map over the
characters (the os and cpu names involved are ASCII). -/
def rustToLower (s : String) : String :=
  String.mk (s.data.map Char.toLower)

/-- Model of Rust str::starts_with, as a structural list comparison. -/
def rustStartsWith (s p : String) : Bool :=
  p.data.isPrefixOf s.data

/-- Model of Rust str::trim: drop whitespace characters from both ends
(the fips indicator file content involved is ASCII). -/
def rustTrim (s : String) : String :=
  String.mk
    (((s.data.dropWhile Char.isWhitespace).reverse.dropWhile Char.isWhitespace).reverse)

/-- The b_arm flag of get_extension (lib.rs line 362). -/
def is_arm (cpu : String) : Bool :=
  rustStartsWith cpu "arm" || rustStartsWith cpu "aarch"

/-- The b_power flag of get_extension (lib.rs line 363). -/
def is_power (cpu : String) : Bool :=
  cpu == "ppc64le"

/-- The b_fips flag of get_extension (lib.rs line 364): linux only, with
`unwrap_or_default` turning an unreadable file into the empty string. -/
def fips_enabled (osType : String) (fipsFile : Option String) : Bool :=
  osType == "linux" && (rustTrim (fipsFile.getD "") == "1")

/-- get_extension (lib.rs lines 359-393), over an explicit platform
descriptor in place of the process environment. -/
def get_extension (plat : Platform) : String :=
  let osType := rustToLower plat.osType
  let cpu := rustToLower plat.cpu
  let bArm := is_arm cpu
  let bPower := is_power cpu
  let bFips := fips_enabled osType plat.fipsFile
  let nBits := plat.nBits
  if osType == "windows" then
    (if nBits == 32 then "x86.dll" else "dll")
  else if osType == "macos" then "dylib"
  else if osType == "aix" then "aix.so"
  else if bArm && bFips then "arm.fips.so"
  else if bArm then "arm.so"
  else if bPower then "power.so"
  else if nBits == 32 then "x86.so"
  else if bFips then "fips.so"
  else "so"

/-- The library file name pushed onto lib_dir by load_driver
(lib.rs line 401). -/
def libFileName (plat : Platform) : String :=
  "teradatasql." ++ get_extension plat

/-- The twelve OnceLock statics of lib.rs (lines 96-108): the library handle
and one slot per entry point; a slot holds the resolved symbol value once
published.  Symbol values are opaque and modelled as Nat. -/
structure RegistryState where
  library : Option Nat
  goCombineJSON : Option Nat
  goParseParams : Option Nat
  goCreateConnection : Option Nat
  goCloseConnection : Option Nat
  goCancelRequest : Option Nat
  rustgoCreateRows : Option Nat
  rustgoResultMetaData : Option Nat
  rustgoFetchRow : Option Nat
  goNextResult : Option Nat
  goCloseRows : Option Nat
  goFreePointer : Option Nat
deriving DecidableEq, Repr

/-- The process start state: no OnceLock is set. -/
def emptyRegistry : RegistryState :=
  ⟨none, none, none, none, none, none, none, none, none, none, none, none⟩

/-- A registry after a fully successful load: every slot published. -/
def fullRegistry : RegistryState :=
  ⟨some 100, some 1, some 2, some 3, some 4, some 5, some 6,
   some 7, some 8, some 9, some 10, some 11⟩

/-- True when the string contains a NUL character; `CString::new(s).unwrap()`
panics exactly then. -/
def hasNul (s : String) : Bool :=
  s.data.any (fun c => c = Char.ofNat 0)

/-- Model of `CString::new`: fails on interior NUL, otherwise the bytes
handed to the native side are exactly the input bytes. -/
def cstringNew (s : String) : Option String :=
  if hasNul s then none else some s

/-- go_combine_json_wrapper (lib.rs lines 111-135) including marshalling and
symbol fetch; `none` models a panic.  Both branches release a buffer, so the
free slot is required on both. -/
def go_combine_json_wrapper (reg : RegistryState) (json1 json2 : String)
    (resp : CombineJSONResp) : Option (Except String String × List NativeCall) :=
  match cstringNew json1 with
  | none => none
  | some c1 =>
  match cstringNew json2 with
  | none => none
  | some c2 =>
  match reg.goCombineJSON with
  | none => none
  | some _ =>
  match reg.goFreePointer with
  | none => none
  | some _ => some (go_combine_json_body c1 c2 resp)

/-- go_parse_params_wrapper (lib.rs lines 138-157); the free slot is only
needed (and only panics when absent) on the error branch. -/
def go_parse_params_wrapper (reg : RegistryState) (params : String)
    (resp : ParseParamsResp) : Option (Except String Nat × List NativeCall) :=
  match cstringNew params with
  | none => none
  | some c =>
  match reg.goParseParams with
  | none => none
  | some _ =>
  match resp.error with
  | some _ =>
    match reg.goFreePointer with
    | none => none
    | some _ => some (go_parse_params_body c resp)
  | none => some (go_parse_params_body c resp)

/-- go_create_connection_wrapper (lib.rs lines 160-184). -/
def go_create_connection_wrapper (reg : RegistryState) (uLog : Nat)
    (version params : String) (resp : CreateConnectionResp) :
    Option (Except String Nat × List NativeCall) :=
  match cstringNew version with
  | none => none
  | some cv =>
  match cstringNew params with
  | none => none
  | some cp =>
  match reg.goCreateConnection with
  | none => none
  | some _ =>
  match resp.error with
  | some _ =>
    match reg.goFreePointer with
    | none => none
    | some _ => some (go_create_connection_body uLog cv cp resp)
  | none => some (go_create_connection_body uLog cv cp resp)

/-- go_close_connection_wrapper (lib.rs lines 187-201). -/
def go_close_connection_wrapper (reg : RegistryState) (uLog connHandle : Nat)
    (resp : ErrorOnlyResp) : Option (Except String Unit × List NativeCall) :=
  match reg.goCloseConnection with
  | none => none
  | some _ =>
  match resp.error with
  | some _ =>
    match reg.goFreePointer with
    | none => none
    | some _ => some (go_close_connection_body uLog connHandle resp)
  | none => some (go_close_connection_body uLog connHandle resp)

/-- go_cancel_request_wrapper (lib.rs lines 204-218). -/
def go_cancel_request_wrapper (reg : RegistryState) (uLog connHandle : Nat)
    (resp : ErrorOnlyResp) : Option (Except String Unit × List NativeCall) :=
  match reg.goCancelRequest with
  | none => none
  | some _ =>
  match resp.error with
  | some _ =>
    match reg.goFreePointer with
    | none => none
    | some _ => some (go_cancel_request_body uLog connHandle resp)
  | none => some (go_cancel_request_body uLog connHandle resp)

/-- rustgo_create_rows_wrapper (lib.rs lines 221-247). -/
def rustgo_create_rows_wrapper (reg : RegistryState) (uLog connHandle : Nat)
    (requestText bindValues : String) (resp : CreateRowsResp) :
    Option (Except String Nat × List NativeCall) :=
  match cstringNew requestText with
  | none => none
  | some crt =>
  match cstringNew bindValues with
  | none => none
  | some cbv =>
  match reg.rustgoCreateRows with
  | none => none
  | some _ =>
  match resp.error with
  | some _ =>
    match reg.goFreePointer with
    | none => none
    | some _ => some (rustgo_create_rows_body uLog connHandle crt cbv resp)
  | none => some (rustgo_create_rows_body uLog connHandle crt cbv resp)

/-- rustgo_result_metadata_wrapper (lib.rs lines 250-280): both branches
release at least one buffer. -/
def rustgo_result_metadata_wrapper (reg : RegistryState) (uLog rowsHandle : Nat)
    (resp : ResultMetaDataResp) :
    Option (Except String (Nat × Nat × String × String) × List NativeCall) :=
  match reg.rustgoResultMetaData with
  | none => none
  | some _ =>
  match reg.goFreePointer with
  | none => none
  | some _ => some (rustgo_result_metadata_body uLog rowsHandle resp)

/-- rustgo_fetch_row_wrapper (lib.rs lines 283-309): the end-of-rows branch
frees nothing, so it succeeds even without the free slot. -/
def rustgo_fetch_row_wrapper (reg : RegistryState) (uLog rowsHandle : Nat)
    (resp : FetchRowResp) :
    Option (Except String (Option String) × List NativeCall) :=
  match reg.rustgoFetchRow with
  | none => none
  | some _ =>
  match resp.error with
  | some _ =>
    match reg.goFreePointer with
    | none => none
    | some _ => some (rustgo_fetch_row_body uLog rowsHandle resp)
  | none =>
    match resp.columnValues with
    | none => some (rustgo_fetch_row_body uLog rowsHandle resp)
    | some _ =>
      match reg.goFreePointer with
      | none => none
      | some _ => some (rustgo_fetch_row_body uLog rowsHandle resp)

/-- go_next_result_wrapper (lib.rs lines 312-332). -/
def go_next_result_wrapper (reg : RegistryState) (uLog rowsHandle : Nat)
    (resp : NextResultResp) : Option (Except String Bool × List NativeCall) :=
  match reg.goNextResult with
  | none => none
  | some _ =>
  match resp.error with
  | some _ =>
    match reg.goFreePointer with
    | none => none
    | some _ => some (go_next_result_body uLog rowsHandle resp)
  | none => some (go_next_result_body uLog rowsHandle resp)

/-- go_close_rows_wrapper (lib.rs lines 335-349). -/
def go_close_rows_wrapper (reg : RegistryState) (uLog rowsHandle : Nat)
    (resp : ErrorOnlyResp) : Option (Except String Unit × List NativeCall) :=
  match reg.goCloseRows with
  | none => none
  | some _ =>
  match resp.error with
  | some _ =>
    match reg.goFreePointer with
    | none => none
    | some _ => some (go_close_rows_body uLog rowsHandle resp)
  | none => some (go_close_rows_body uLog rowsHandle resp)

/-- go_free_pointer_wrapper (lib.rs lines 352-357): fetches the symbol
(panicking when unset) and invokes it; it never reports an error. -/
def go_free_pointer_wrapper (reg : RegistryState) (uLog ptr : Nat) :
    Option (List NativeCall) :=
  match reg.goFreePointer with
  | none => none
  | some _ => some [NativeCall.freePointer uLog ptr]

/-- Outcomes of the external dynamic-loading operations consumed by
load_driver: the result of Library::new on (directory, file name), and the
result of resolving each entry-point name in the opened library. -/
structure LoadEnv where
  openLib : String → String → Except String Nat
  resolve : String → Except String Nat

/-- Model of `OnceLock::set`: publishes the value when the slot is empty,
otherwise fails with the already-set message used in load_driver. -/
def trySet (slot : Option Nat) (v : Nat) (name : String) : Except String (Option Nat) :=
  match slot with
  | none => Except.ok (some v)
  | some _ => Except.error (name ++ " already set")

/-- One linking step of load_driver: on a resolved symbol, publish it into
its OnceLock; on a resolution failure, fail with the link error naming the
entry point (lib.rs lines 425-432 and analogous blocks). -/
def link1 (resolved : Except String Nat) (name : String) (slot : Option Nat) :
    Except String (Option Nat) :=
  match resolved with
  | Except.ok f => trySet slot f name
  | Except.error e => Except.error ("Could not link to function " ++ name ++ ": " ++ e)

/-- load_driver (lib.rs lines 395-526) as a transition on the registry
state.  `Library::new` runs first; its handle is then published into the
library OnceLock (failing with "Library already set" on a second call).  In
the source all eleven symbol resolutions are performed up front (lines
413-423, all pure lookups in the opened library) and then published one by
one in a fixed order, each block early-returning on failure, so the slots
already set by earlier blocks of the same failed call keep their values. -/
def load_driver (env : LoadEnv) (libDir : String) (plat : Platform)
    (st : RegistryState) : Except String Unit × RegistryState :=
  match env.openLib libDir (libFileName plat) with
  | Except.error err => (Except.error ("Could not load library: " ++ err), st)
  | Except.ok lib =>
  match st.library with
  | some _ => (Except.error "Library already set", st)
  | none =>
  let st := { st with library := some lib }
  match link1 (env.resolve "goCombineJSON") "goCombineJSON" st.goCombineJSON with
  | Except.error e => (Except.error e, st)
  | Except.ok s =>
  let st := { st with goCombineJSON := s }
  match link1 (env.resolve "goParseParams") "goParseParams" st.goParseParams with
  | Except.error e => (Except.error e, st)
  | Except.ok s =>
  let st := { st with goParseParams := s }
  match link1 (env.resolve "goCreateConnection") "goCreateConnection" st.goCreateConnection with
  | Except.error e => (Except.error e, st)
  | Except.ok s =>
  let st := { st with goCreateConnection := s }
  match link1 (env.resolve "goCloseConnection") "goCloseConnection" st.goCloseConnection with
  | Except.error e => (Except.error e, st)
  | Except.ok s =>
  let st := { st with goCloseConnection := s }
  match link1 (env.resolve "goCancelRequest") "goCancelRequest" st.goCancelRequest with
  | Except.error e => (Except.error e, st)
  | Except.ok s =>
  let st := { st with goCancelRequest := s }
  match link1 (env.resolve "rustgoCreateRows") "rustgoCreateRows" st.rustgoCreateRows with
  | Except.error e => (Except.error e, st)
  | Except.ok s =>
  let st := { st with rustgoCreateRows := s }
  match link1 (env.resolve "rustgoResultMetaData") "rustgoResultMetaData" st.rustgoResultMetaData with
  | Except.error e => (Except.error e, st)
  | Except.ok s =>
  let st := { st with rustgoResultMetaData := s }
  match link1 (env.resolve "rustgoFetchRow") "rustgoFetchRow" st.rustgoFetchRow with
  | Except.error e => (Except.error e, st)
  | Except.ok s =>
  let st := { st with rustgoFetchRow := s }
  match link1 (env.resolve "goNextResult") "goNextResult" st.goNextResult with
  | Except.error e => (Except.error e, st)
  | Except.ok s =>
  let st := { st with goNextResult := s }
  match link1 (env.resolve "goCloseRows") "goCloseRows" st.goCloseRows with
  | Except.error e => (Except.error e, st)
  | Except.ok s =>
  let st := { st with goCloseRows := s }
  match link1 (env.resolve "goFreePointer") "goFreePointer" st.goFreePointer with
  | Except.error e => (Except.error e, st)
  | Except.ok s =>
  let st := { st with goFreePointer := s }
  (Except.ok (), st)

/-- The native layer's scripted behaviour for one result of a cursor:
the resultMetaData response, the fetchRow responses handed out in order,
and the nextResult response. -/
structure ResultScript where
  meta : ResultMetaDataResp
  fetches : List FetchRowResp
  next : NextResultResp
deriving DecidableEq, Repr

/-- How the result loop of execute_request (cmdline.rs lines 19-62) was
left: metaError models the early `return` on a resultMetaData error (which
skips the closing call), toClose models `break` out of the outer loop
(control reaches the go_close_rows_wrapper call), outOfScript means the
supplied script was too short to determine the run. -/
inductive LoopExit where
  | metaError
  | toClose
  | outOfScript
deriving DecidableEq, Repr

/-- The inner row loop of execute_request (cmdline.rs lines 33-47):
fetches until end-of-rows or a fetch error (both `break`), accumulating the
native calls made.  The Bool is true when the loop terminated by `break`,
false when the scripted responses ran out first. -/
def fetchLoop (uLog rows : Nat) : List FetchRowResp → List NativeCall × Bool
  | [] => ([], false)
  | r :: rest =>
    match rustgo_fetch_row_body uLog rows r with
    | (Except.ok (some _), evs) =>
      let p := fetchLoop uLog rows rest
      (evs ++ p.1, p.2)
    | (Except.ok none, evs) => (evs, true)
    | (Except.error _, evs) => (evs, true)

/-- The outer result loop of execute_request (cmdline.rs lines 19-62):
per result, metadata then the row loop then nextResult; a metadata error
does `return` (metaError), a nextResult false or error does `break`
(toClose), a nextResult true continues with the next scripted result. -/
def resultsLoop (uLog rows : Nat) : List ResultScript → List NativeCall × LoopExit
  | [] => ([], LoopExit.outOfScript)
  | s :: rest =>
    match rustgo_result_metadata_body uLog rows s.meta with
    | (Except.error _, evs) => (evs, LoopExit.metaError)
    | (Except.ok _, evs) =>
      let f := fetchLoop uLog rows s.fetches
      if f.2 then
        match go_next_result_body uLog rows s.next with
        | (Except.ok true, nevs) =>
          let r := resultsLoop uLog rows rest
          (evs ++ f.1 ++ nevs ++ r.1, r.2)
        | (Except.ok false, nevs) => (evs ++ f.1 ++ nevs, LoopExit.toClose)
        | (Except.error _, nevs) => (evs ++ f.1 ++ nevs, LoopExit.toClose)
      else (evs ++ f.1, LoopExit.outOfScript)

/-- execute_request (cmdline.rs lines 5-67), over the post-load wrapper
bodies (the program only calls it after a fully successful load, and argv
strings cannot contain interior NUL).  Returns the native-call trace and
whether the supplied script fully determined the run.  Note the shape of
the source: a resultMetaData error `return`s from the function, so only the
toClose exit performs the final go_close_rows_wrapper call. -/
def execute_request (uLog connHandle : Nat) (requestText bindValues : String)
    (createResp : CreateRowsResp) (script : List ResultScript)
    (closeResp : ErrorOnlyResp) : List NativeCall × Bool :=
  match rustgo_create_rows_body uLog connHandle requestText bindValues createResp with
  | (Except.error _, evs) => (evs, true)
  | (Except.ok rowsHandle, evs) =>
    match resultsLoop uLog rowsHandle script with
    | (levs, LoopExit.metaError) => (evs ++ levs, true)
    | (levs, LoopExit.outOfScript) => (evs ++ levs, false)
    | (levs, LoopExit.toClose) =>
      let c := go_close_rows_body uLog rowsHandle closeResp
      (evs ++ levs ++ c.2, true)

/-- The number of goCloseRows invocations in a native-call trace. -/
def closeRowsCount : List NativeCall → Nat
  | [] => 0
  | NativeCall.closeRows _ _ :: rest => closeRowsCount rest + 1
  | _ :: rest => closeRowsCount rest

/-- True for the three native calls the cursor convenience operations are
allowed to make: createRows, closeRows and the shared freePointer. -/
def NativeCall.isCursorLifecycle : NativeCall → Bool
  | NativeCall.createRows _ _ _ _ => true
  | NativeCall.closeRows _ _ => true
  | NativeCall.freePointer _ _ => true
  | _ => false

/-- Scripted native responses for one execute_simple_request run. -/
structure SimpleRequestEnv where
  createResp : CreateRowsResp
  closeResp : ErrorOnlyResp
deriving DecidableEq, Repr

/-- execute_simple_request (lib.rs lines 607-626): createRows with the JSON
null bind marker, then immediately closeRows on the returned handle. -/
def execute_simple_request (reg : RegistryState) (uLog connHandle : Nat)
    (requestText : String) (env : SimpleRequestEnv) :
    Option (Except String Unit × List NativeCall) :=
  match rustgo_create_rows_wrapper reg uLog connHandle requestText "null" env.createResp with
  | none => none
  | some (Except.error err, evs) =>
      some (Except.error ("Error from rustgo_create_rows_wrapper: " ++ err), evs)
  | some (Except.ok rowsHandle, evs) =>
    match go_close_rows_wrapper reg uLog rowsHandle env.closeResp with
    | none => none
    | some (Except.error err, cevs) =>
        some (Except.error ("Error from go_close_rows_wrapper: " ++ err), evs ++ cevs)
    | some (Except.ok _, cevs) => some (Except.ok (), evs ++ cevs)

/-- commit (lib.rs lines 628-635). -/
def commit (reg : RegistryState) (uLog connHandle : Nat) (env : SimpleRequestEnv) :
    Option (Except String Unit × List NativeCall) :=
  execute_simple_request reg uLog connHandle "\x7bfn teradata_commit\x7d" env

/-- rollback (lib.rs lines 637-644). -/
def rollback (reg : RegistryState) (uLog connHandle : Nat) (env : SimpleRequestEnv) :
    Option (Except String Unit × List NativeCall) :=
  execute_simple_request reg uLog connHandle "\x7bfn teradata_rollback\x7d" env

/-- set_autocommit (lib.rs lines 646-653). -/
def set_autocommit (reg : RegistryState) (uLog connHandle : Nat) (b : Bool)
    (env : SimpleRequestEnv) : Option (Except String Unit × List NativeCall) :=
  execute_simple_request reg uLog connHandle
    ("\x7bfn teradata_nativesql\x7d\x7bfn teradata_autocommit_"
      ++ (if b then "on" else "off") ++ "\x7d") env

/-- Suffix table modelled from the spec words (spec.md section 4.1), as a
function of the os class, the architecture class, the bit width and the
fips flag, in the spec's decision order; compared against get_extension. -/
def resolve_suffix (isWindows isMacos isAix bArm bPower : Bool) (bits : Nat)
    (fips : Bool) : String :=
  if isWindows then (if bits == 32 then "x86.dll" else "dll")
  else if isMacos then "dylib"
  else if isAix then "aix.so"
  else if bArm && fips then "arm.fips.so"
  else if bArm then "arm.so"
  else if bPower then "power.so"
  else if bits == 32 then "x86.so"
  else if fips then "fips.so"
  else "so"

/-- A 64-bit linux platform descriptor used in concrete scenarios. -/
def linuxPlat : Platform := ⟨"linux", "x86_64", 64, none⟩

/-- A load environment in which the library opens and every symbol
resolves. -/
def fullLoadEnv : LoadEnv := ⟨fun _ _ => Except.ok 50, fun _ => Except.ok 1⟩

/-- The registry produced by a fully successful first load. -/
def loadedState : RegistryState :=
  (load_driver fullLoadEnv "/opt/teradata" linuxPlat emptyRegistry).2

/-- A load environment in which the library opens, goCombineJSON resolves,
but goParseParams is missing from the library. -/
def envMissingParseParams : LoadEnv :=
  ⟨fun _ _ => Except.ok 50,
   fun n => if n == "goParseParams" then Except.error "undefined symbol" else Except.ok 1⟩

/-- C4: the suffix resolver is a total function following exactly the
spec's decision table over (os, arch class, bits, fips); fips is treated as
false when the platform indicator is unreadable; and the library file name
is "teradatasql." concatenated with the suffix. -/
theorem get_extension_follows_spec_table (plat : Platform) :
    get_extension plat =
      resolve_suffix (rustToLower plat.osType == "windows")
        (rustToLower plat.osType == "macos") (rustToLower plat.osType == "aix")
        (is_arm (rustToLower plat.cpu)) (is_power (rustToLower plat.cpu))
        plat.nBits (fips_enabled (rustToLower plat.osType) plat.fipsFile) ∧
    (∀ osType, fips_enabled osType none = false) ∧
    libFileName plat = "teradatasql." ++ get_extension plat := by
  refine ⟨rfl, ?_, rfl⟩
  intro o
  have h1 : (rustTrim "" == "1") = false := rfl
  simp [fips_enabled, h1]

/-- C6: fetch_row yields the end-of-rows signal Except.ok none exactly when
the native row pointer and error pointer are both null; that outcome is a
success value, never the error outcome, which carries the error message;
a non-null row pointer yields the row text. -/
theorem fetch_row_end_of_rows_is_success (uLog rowsHandle : Nat) (resp : FetchRowResp) :
    ((rustgo_fetch_row_body uLog rowsHandle resp).1 = Except.ok none ↔
      resp.error = none ∧ resp.columnValues = none) ∧
    (∀ b, resp.error = some b →
      (rustgo_fetch_row_body uLog rowsHandle resp).1 = Except.error b.content) ∧
    (∀ cv, resp.error = none → resp.columnValues = some cv →
      (rustgo_fetch_row_body uLog rowsHandle resp).1 = Except.ok (some cv.content)) := by
  rcases resp with ⟨e, cv⟩
  cases e <;> cases cv <;> simp [rustgo_fetch_row_body]

/-- Witness for C6 at concrete responses: exhaustion is the success value
Except.ok none, and a native error is the distinct error outcome. -/
theorem fetch_row_end_of_rows_witness :
    (rustgo_fetch_row_body 1 2 ⟨none, none⟩).1 = Except.ok none ∧
    (rustgo_fetch_row_body 1 2 ⟨some ⟨3, "bad"⟩, none⟩).1 = Except.error "bad" :=
  ⟨(fetch_row_end_of_rows_is_success 1 2 ⟨none, none⟩).1.mpr ⟨rfl, rfl⟩,
   (fetch_row_end_of_rows_is_success 1 2 ⟨some ⟨3, "bad"⟩, none⟩).2.1 ⟨3, "bad"⟩ rfl⟩

/-- C3: for every entry point reporting an error pointer, when the native
call writes a non-null error pointer the wrapper returns the typed failure
carrying the message, the trace contains exactly one goFreePointer call and
it targets exactly that buffer, and the returned value is the same whatever
the other output parameters hold (they are not read). -/
theorem native_error_freed_once_nothing_else_read (uLog h : Nat) (s t : String)
    (b : NativeBuf) :
    (∀ resp : CombineJSONResp, resp.error = some b →
      go_combine_json_body s t resp = (Except.error b.content,
        [NativeCall.combineJSON s t, NativeCall.freePointer 0 b.id])) ∧
    (∀ resp : ParseParamsResp, resp.error = some b →
      go_parse_params_body s resp = (Except.error b.content,
        [NativeCall.parseParams s, NativeCall.freePointer resp.log b.id])) ∧
    (∀ resp : CreateConnectionResp, resp.error = some b →
      go_create_connection_body uLog s t resp = (Except.error b.content,
        [NativeCall.createConnection uLog s t, NativeCall.freePointer uLog b.id])) ∧
    (∀ resp : ErrorOnlyResp, resp.error = some b →
      go_close_connection_body uLog h resp = (Except.error b.content,
        [NativeCall.closeConnection uLog h, NativeCall.freePointer uLog b.id])) ∧
    (∀ resp : ErrorOnlyResp, resp.error = some b →
      go_cancel_request_body uLog h resp = (Except.error b.content,
        [NativeCall.cancelRequest uLog h, NativeCall.freePointer uLog b.id])) ∧
    (∀ resp : CreateRowsResp, resp.error = some b →
      rustgo_create_rows_body uLog h s t resp = (Except.error b.content,
        [NativeCall.createRows uLog h s t, NativeCall.freePointer uLog b.id])) ∧
    (∀ resp : ResultMetaDataResp, resp.error = some b →
      rustgo_result_metadata_body uLog h resp = (Except.error b.content,
        [NativeCall.resultMetaData uLog h, NativeCall.freePointer uLog b.id])) ∧
    (∀ resp : FetchRowResp, resp.error = some b →
      rustgo_fetch_row_body uLog h resp = (Except.error b.content,
        [NativeCall.fetchRow uLog h, NativeCall.freePointer uLog b.id])) ∧
    (∀ resp : NextResultResp, resp.error = some b →
      go_next_result_body uLog h resp = (Except.error b.content,
        [NativeCall.nextResult uLog h, NativeCall.freePointer uLog b.id])) ∧
    (∀ resp : ErrorOnlyResp, resp.error = some b →
      go_close_rows_body uLog h resp = (Except.error b.content,
        [NativeCall.closeRows uLog h, NativeCall.freePointer uLog b.id])) := by
  refine ⟨?_, ?_, ?_, ?_, ?_, ?_, ?_, ?_, ?_, ?_⟩ <;>
    (intro resp hr; cases resp; simp_all [go_combine_json_body, go_parse_params_body,
      go_create_connection_body, go_close_connection_body, go_cancel_request_body,
      rustgo_create_rows_body, rustgo_result_metadata_body, rustgo_fetch_row_body,
      go_next_result_body, go_close_rows_body])

/-- Witness for C3 at concrete error responses for the two wrappers cited
by the claim: the failure carries the message, the error buffer is freed
exactly once (with the call's log handle, or the sentinel 0 for
combineJSON), and the other outputs do not influence the outcome. -/
theorem native_error_freed_once_witness :
    rustgo_result_metadata_body 4 9 ⟨some ⟨7, "err"⟩, 1, 2, ⟨8, "an"⟩, ⟨9, "cm"⟩⟩ =
      (Except.error "err", [NativeCall.resultMetaData 4 9, NativeCall.freePointer 4 7]) ∧
    go_combine_json_body "a" "b" ⟨some ⟨7, "err"⟩, ⟨8, "c"⟩⟩ =
      (Except.error "err", [NativeCall.combineJSON "a" "b", NativeCall.freePointer 0 7]) :=
  ⟨(native_error_freed_once_nothing_else_read 4 9 "a" "b" ⟨7, "err"⟩).2.2.2.2.2.2.1
      ⟨some ⟨7, "err"⟩, 1, 2, ⟨8, "an"⟩, ⟨9, "cm"⟩⟩ rfl,
   (native_error_freed_once_nothing_else_read 4 9 "a" "b" ⟨7, "err"⟩).1
      ⟨some ⟨7, "err"⟩, ⟨8, "c"⟩⟩ rfl⟩

/-- C7: for NUL-free request text and bind values (after a load that
published the needed symbols), the createRows call delivered at the native
boundary carries exactly the caller's request and bind strings, whatever
the native outcome is. -/
theorem create_rows_passes_inputs_through (reg : RegistryState)
    (uLog connHandle : Nat) (requestText bindValues : String)
    (resp : CreateRowsResp) (f g : Nat)
    (hreq : hasNul requestText = false) (hbind : hasNul bindValues = false)
    (hslot : reg.rustgoCreateRows = some f) (hfree : reg.goFreePointer = some g) :
    ∃ r evs, rustgo_create_rows_wrapper reg uLog connHandle requestText bindValues resp =
      some (r, NativeCall.createRows uLog connHandle requestText bindValues :: evs) := by
  rcases resp with ⟨e, rh⟩
  cases e with
  | none =>
    exact ⟨Except.ok rh, [], by
      simp [rustgo_create_rows_wrapper, cstringNew, hreq, hbind, hslot, hfree,
        rustgo_create_rows_body]⟩
  | some b =>
    exact ⟨Except.error b.content, [NativeCall.freePointer uLog b.id], by
      simp [rustgo_create_rows_wrapper, cstringNew, hreq, hbind, hslot, hfree,
        rustgo_create_rows_body]⟩

/-- Witness for C7 at the two bind-value inputs named by the spec: both
arrive unmodified at the native call boundary. -/
theorem create_rows_passes_inputs_through_witness :
    (∃ r evs, rustgo_create_rows_wrapper fullRegistry 1 2
        "insert into vtab values (?, ?)" "[[123,\"hello\"]]" ⟨none, 7⟩ =
      some (r, NativeCall.createRows 1 2
        "insert into vtab values (?, ?)" "[[123,\"hello\"]]" :: evs)) ∧
    (∃ r evs, rustgo_create_rows_wrapper fullRegistry 1 2
        "insert into vtab values (?, ?)" "[[456,\"world\"],[789,\"foobar\"]]" ⟨none, 7⟩ =
      some (r, NativeCall.createRows 1 2
        "insert into vtab values (?, ?)" "[[456,\"world\"],[789,\"foobar\"]]" :: evs)) :=
  ⟨create_rows_passes_inputs_through fullRegistry 1 2 "insert into vtab values (?, ?)"
      "[[123,\"hello\"]]" ⟨none, 7⟩ 6 11 (by decide) (by decide) rfl rfl,
   create_rows_passes_inputs_through fullRegistry 1 2 "insert into vtab values (?, ?)"
      "[[456,\"world\"],[789,\"foobar\"]]" ⟨none, 7⟩ 6 11 (by decide) (by decide) rfl rfl⟩

/-- C10: each public wrapper taking text input (combine_json, parse_params,
create_connection, create_rows) panics - modelled as none - when the text
contains an interior NUL, in either text position, whatever the registry
holds (in particular after a fully successful load). -/
theorem nul_input_panics (reg : RegistryState) (uLog : Nat) (s : String)
    (hs : hasNul s = true) :
    (∀ (t : String) resp, go_combine_json_wrapper reg s t resp = none) ∧
    (∀ (t : String) resp, go_combine_json_wrapper reg t s resp = none) ∧
    (∀ resp, go_parse_params_wrapper reg s resp = none) ∧
    (∀ (t : String) resp, go_create_connection_wrapper reg uLog s t resp = none) ∧
    (∀ (t : String) resp, go_create_connection_wrapper reg uLog t s resp = none) ∧
    (∀ (conn : Nat) (t : String) resp,
      rustgo_create_rows_wrapper reg uLog conn s t resp = none) ∧
    (∀ (conn : Nat) (t : String) resp,
      rustgo_create_rows_wrapper reg uLog conn t s resp = none) := by
  refine ⟨?_, ?_, ?_, ?_, ?_, ?_, ?_⟩
  · intro t resp
    simp [go_combine_json_wrapper, cstringNew, hs]
  · intro t resp
    cases ht : hasNul t <;>
      simp [go_combine_json_wrapper, cstringNew, hs, ht]
  · intro resp
    simp [go_parse_params_wrapper, cstringNew, hs]
  · intro t resp
    simp [go_create_connection_wrapper, cstringNew, hs]
  · intro t resp
    cases ht : hasNul t <;>
      simp [go_create_connection_wrapper, cstringNew, hs, ht]
  · intro conn t resp
    simp [rustgo_create_rows_wrapper, cstringNew, hs]
  · intro conn t resp
    cases ht : hasNul t <;>
      simp [rustgo_create_rows_wrapper, cstringNew, hs, ht]

/-- Witness for C10: with the fully loaded registry, a parameter string
holding an interior NUL byte makes each text wrapper abort instead of
returning a typed failure. -/
theorem nul_input_panics_witness :
    go_combine_json_wrapper fullRegistry "a\x00b" "\x7b\x7d" ⟨none, ⟨1, "r"⟩⟩ = none ∧
    go_parse_params_wrapper fullRegistry "a\x00b" ⟨none, 5⟩ = none ∧
    go_create_connection_wrapper fullRegistry 1 "" "a\x00b" ⟨none, 6⟩ = none ∧
    rustgo_create_rows_wrapper fullRegistry 1 2 "select 1" "a\x00b" ⟨none, 7⟩ = none :=
  ⟨(nul_input_panics fullRegistry 1 "a\x00b" (by decide)).1 "\x7b\x7d" ⟨none, ⟨1, "r"⟩⟩,
   (nul_input_panics fullRegistry 1 "a\x00b" (by decide)).2.2.1 ⟨none, 5⟩,
   (nul_input_panics fullRegistry 1 "a\x00b" (by decide)).2.2.2.2.1 "" ⟨none, 6⟩,
   (nul_input_panics fullRegistry 1 "a\x00b" (by decide)).2.2.2.2.2.2 2 "select 1" ⟨none, 7⟩⟩

/-- C8: commit, rollback and set_autocommit are exactly
execute_simple_request on their specially formatted request texts, and
execute_simple_request submits the text through createRows (with the JSON
null bind marker) followed immediately by closeRows on the returned
handle; its native-call trace holds only createRows, closeRows and shared
freePointer calls - no dedicated entry point of its own. -/
theorem txn_ops_via_create_close (reg : RegistryState) (uLog connHandle : Nat)
    (env : SimpleRequestEnv) (f g k : Nat)
    (hcr : reg.rustgoCreateRows = some f) (hcl : reg.goCloseRows = some k)
    (hfree : reg.goFreePointer = some g) :
    commit reg uLog connHandle env =
      execute_simple_request reg uLog connHandle "\x7bfn teradata_commit\x7d" env ∧
    rollback reg uLog connHandle env =
      execute_simple_request reg uLog connHandle "\x7bfn teradata_rollback\x7d" env ∧
    (∀ b, set_autocommit reg uLog connHandle b env =
      execute_simple_request reg uLog connHandle
        ("\x7bfn teradata_nativesql\x7d\x7bfn teradata_autocommit_"
          ++ (if b then "on" else "off") ++ "\x7d") env) ∧
    (∀ requestText, hasNul requestText = false →
      ∃ r evs, execute_simple_request reg uLog connHandle requestText env = some (r, evs) ∧
        (∀ c ∈ evs, c.isCursorLifecycle = true) ∧
        (env.createResp.error = none →
          evs.take 2 = [NativeCall.createRows uLog connHandle requestText "null",
            NativeCall.closeRows uLog env.createResp.rowsHandle])) := by
  refine ⟨rfl, rfl, fun _ => rfl, ?_⟩
  intro rt hrt
  rcases env with ⟨⟨ce, rh⟩, ⟨cle⟩⟩
  have hn : hasNul "null" = false := by decide
  cases ce with
  | some b =>
    refine ⟨Except.error ("Error from rustgo_create_rows_wrapper: " ++ b.content),
      [NativeCall.createRows uLog connHandle rt "null",
       NativeCall.freePointer uLog b.id], ?_, ?_, ?_⟩
    · simp [execute_simple_request, rustgo_create_rows_wrapper, cstringNew, hrt, hn,
        hcr, hfree, rustgo_create_rows_body]
    · simp [List.forall_mem_cons, NativeCall.isCursorLifecycle]
    · intro hno
      simp at hno
  | none =>
    cases cle with
    | none =>
      refine ⟨Except.ok (), [NativeCall.createRows uLog connHandle rt "null",
        NativeCall.closeRows uLog rh], ?_, ?_, ?_⟩
      · simp [execute_simple_request, rustgo_create_rows_wrapper, go_close_rows_wrapper,
          cstringNew, hrt, hn, hcr, hcl, hfree, rustgo_create_rows_body,
          go_close_rows_body]
      · simp [List.forall_mem_cons, NativeCall.isCursorLifecycle]
      · intro _
        rfl
    | some b =>
      refine ⟨Except.error ("Error from go_close_rows_wrapper: " ++ b.content),
        [NativeCall.createRows uLog connHandle rt "null",
         NativeCall.closeRows uLog rh, NativeCall.freePointer uLog b.id], ?_, ?_, ?_⟩
      · simp [execute_simple_request, rustgo_create_rows_wrapper, go_close_rows_wrapper,
          cstringNew, hrt, hn, hcr, hcl, hfree, rustgo_create_rows_body,
          go_close_rows_body]
      · simp [List.forall_mem_cons, NativeCall.isCursorLifecycle]
      · intro _
        rfl

/-- Witness for C8: the commit request text goes through createRows and is
immediately followed by closeRows on the returned handle 9; every native
call in the trace is cursor-lifecycle. -/
theorem txn_ops_via_create_close_witness :
    ∃ r evs, execute_simple_request fullRegistry 1 2 "\x7bfn teradata_commit\x7d"
        ⟨⟨none, 9⟩, ⟨none⟩⟩ = some (r, evs) ∧
      (∀ c ∈ evs, c.isCursorLifecycle = true) ∧
      ((⟨⟨none, 9⟩, ⟨none⟩⟩ : SimpleRequestEnv).createResp.error = none →
        evs.take 2 = [NativeCall.createRows 1 2 "\x7bfn teradata_commit\x7d" "null",
          NativeCall.closeRows 1 9]) :=
  (txn_ops_via_create_close fullRegistry 1 2 ⟨⟨none, 9⟩, ⟨none⟩⟩ 6 11 10 rfl rfl rfl).2.2.2
    "\x7bfn teradata_commit\x7d" (by decide)

/-- C5 counterexample: after a successful first load, a second load_driver
call whose Library::new fails returns the open error, which is not the
already-loaded error, so the second call does not always report
already-loaded. -/
theorem second_load_open_failure_counterexample :
    (load_driver fullLoadEnv "/opt/teradata" linuxPlat emptyRegistry).1 = Except.ok () ∧
    load_driver ⟨fun _ _ => Except.error "No such file or directory", fun _ => Except.ok 1⟩
        "/opt/teradata" linuxPlat loadedState =
      (Except.error "Could not load library: No such file or directory", loadedState) ∧
    "Could not load library: No such file or directory" ≠ "Library already set" :=
  ⟨rfl, rfl, by decide⟩

/-- C5 amended: once the library OnceLock holds a value, a second
load_driver call never succeeds and leaves the whole registry exactly as it
was; it fails with the already-loaded error whenever the library file
opens, and with the open error otherwise. -/
theorem second_load_always_fails_registry_unchanged (env : LoadEnv) (libDir : String)
    (plat : Platform) (st : RegistryState) (l : Nat) (hlib : st.library = some l) :
    (∃ e, (load_driver env libDir plat st).1 = Except.error e) ∧
    (load_driver env libDir plat st).2 = st ∧
    (∀ m, env.openLib libDir (libFileName plat) = Except.ok m →
      (load_driver env libDir plat st).1 = Except.error "Library already set") := by
  refine ⟨?_, ?_, ?_⟩
  · cases hopen : env.openLib libDir (libFileName plat) with
    | error e => exact ⟨"Could not load library: " ++ e, by simp [load_driver, hopen]⟩
    | ok m => exact ⟨"Library already set", by simp [load_driver, hopen, hlib]⟩
  · cases hopen : env.openLib libDir (libFileName plat) with
    | error e => simp [load_driver, hopen]
    | ok m => simp [load_driver, hopen, hlib]
  · intro m hm
    simp [load_driver, hm, hlib]

/-- Witness for C5 amended, at the loaded state built by a concrete
successful first load. -/
theorem second_load_always_fails_witness :
    (∃ e, (load_driver fullLoadEnv "/elsewhere" linuxPlat loadedState).1 =
      Except.error e) ∧
    (load_driver fullLoadEnv "/elsewhere" linuxPlat loadedState).2 = loadedState ∧
    (∀ m, fullLoadEnv.openLib "/elsewhere" (libFileName linuxPlat) = Except.ok m →
      (load_driver fullLoadEnv "/elsewhere" linuxPlat loadedState).1 =
        Except.error "Library already set") :=
  second_load_always_fails_registry_unchanged fullLoadEnv "/elsewhere" linuxPlat
    loadedState 50 rfl


/-- closeRowsCount distributes over trace concatenation. -/
theorem closeRowsCount_append (l1 l2 : List NativeCall) :
    closeRowsCount (l1 ++ l2) = closeRowsCount l1 + closeRowsCount l2 := by
  induction l1 with
  | nil => simp [closeRowsCount]
  | cons a l ih => cases a <;> simp [closeRowsCount, ih] <;> omega

/-- The inner fetch loop never invokes goCloseRows. -/
theorem fetchLoop_no_closeRows (uLog rows : Nat) (l : List FetchRowResp) :
    closeRowsCount (fetchLoop uLog rows l).1 = 0 := by
  induction l with
  | nil => rfl
  | cons r rest ih =>
    rcases r with ⟨e, cv⟩
    cases e with
    | some b => simp [fetchLoop, rustgo_fetch_row_body, closeRowsCount]
    | none =>
      cases cv with
      | none => simp [fetchLoop, rustgo_fetch_row_body, closeRowsCount]
      | some c =>
        simp [fetchLoop, rustgo_fetch_row_body, closeRowsCount_append, closeRowsCount, ih]

/-- The outer result loop never invokes goCloseRows: the only closing call
in execute_request is the final go_close_rows_wrapper call after the loop. -/
theorem resultsLoop_no_closeRows (uLog rows : Nat) (script : List ResultScript) :
    closeRowsCount (resultsLoop uLog rows script).1 = 0 := by
  induction script with
  | nil => rfl
  | cons s rest ih =>
    rcases s with ⟨⟨me, ac, aty, an, cm⟩, fetches, ⟨nerr, av⟩⟩
    cases me with
    | some b => simp [resultsLoop, rustgo_result_metadata_body, closeRowsCount]
    | none =>
      cases htf : (fetchLoop uLog rows fetches).2 with
      | false =>
        simp [resultsLoop, rustgo_result_metadata_body, htf, closeRowsCount_append,
          closeRowsCount, fetchLoop_no_closeRows]
      | true =>
        cases nerr with
        | some b =>
          simp [resultsLoop, rustgo_result_metadata_body, go_next_result_body, htf,
            closeRowsCount_append, closeRowsCount, fetchLoop_no_closeRows]
        | none =>
          cases hav : (av == 'Y') with
          | false =>
            simp [resultsLoop, rustgo_result_metadata_body, go_next_result_body, htf,
              hav, closeRowsCount_append, closeRowsCount, fetchLoop_no_closeRows]
          | true =>
            simp [resultsLoop, rustgo_result_metadata_body, go_next_result_body, htf,
              hav, closeRowsCount_append, closeRowsCount, fetchLoop_no_closeRows, ih]

/-- go_close_rows_body makes exactly one goCloseRows call, on both of its
branches. -/
theorem go_close_rows_body_one_close (uLog rows : Nat) (resp : ErrorOnlyResp) :
    closeRowsCount (go_close_rows_body uLog rows resp).2 = 1 := by
  rcases resp with ⟨e⟩
  cases e <;> simp [go_close_rows_body, closeRowsCount]

/-- On every run of execute_request in which createRows succeeds and the
result loop exits by break (nextResult returning false or failing, after
any mix of fetched rows, fetch errors and completed results), the rows
handle is closed exactly once. -/
theorem close_rows_once_on_break_exit (uLog connHandle : Nat)
    (requestText bindValues : String) (rh : Nat) (script : List ResultScript)
    (closeResp : ErrorOnlyResp) (levs : List NativeCall)
    (hloop : resultsLoop uLog rh script = (levs, LoopExit.toClose)) :
    closeRowsCount (execute_request uLog connHandle requestText bindValues ⟨none, rh⟩
      script closeResp).1 = 1 := by
  have h0 := resultsLoop_no_closeRows uLog rh script
  rw [hloop] at h0
  simp at h0
  simp [execute_request, rustgo_create_rows_body, hloop, closeRowsCount_append,
    closeRowsCount, h0, go_close_rows_body_one_close]

/-- Witness for the break-exit close-once theorem, at a concrete one-result
script that fetches one end-of-rows and then sees nextResult N. -/
theorem close_rows_once_on_break_exit_witness :
    closeRowsCount (execute_request 1 2 "select 1" "null" ⟨none, 7⟩
      [⟨⟨none, 1, 2, ⟨3, "an"⟩, ⟨4, "cm"⟩⟩, [⟨none, none⟩], ⟨none, 'N'⟩⟩] ⟨none⟩).1 = 1 :=
  close_rows_once_on_break_exit 1 2 "select 1" "null" 7
    [⟨⟨none, 1, 2, ⟨3, "an"⟩, ⟨4, "cm"⟩⟩, [⟨none, none⟩], ⟨none, 'N'⟩⟩] ⟨none⟩
    [NativeCall.resultMetaData 1 7, NativeCall.freePointer 1 3, NativeCall.freePointer 1 4,
     NativeCall.fetchRow 1 7, NativeCall.nextResult 1 7] rfl

/-- C1: at the failing input - createRows succeeds with rows handle 7 and
the native layer then reports an error from resultMetaData - the driver
loop of execute_request returns early and its native-call trace contains no
goCloseRows call at all: the handle obtained from the successful createRows
call is never closed on this exit path, although the run is fully
determined by the script. -/
theorem metadata_error_skips_close_rows :
    (execute_request 1 2 "select 1" "null" ⟨none, 7⟩
        [⟨⟨some ⟨5, "boom"⟩, 0, 0, ⟨0, ""⟩, ⟨0, ""⟩⟩, [], ⟨none, 'N'⟩⟩] ⟨none⟩).2 = true ∧
    (execute_request 1 2 "select 1" "null" ⟨none, 7⟩
        [⟨⟨some ⟨5, "boom"⟩, 0, 0, ⟨0, ""⟩, ⟨0, ""⟩⟩, [], ⟨none, 'N'⟩⟩] ⟨none⟩).1 =
      [NativeCall.createRows 1 2 "select 1" "null", NativeCall.resultMetaData 1 7,
       NativeCall.freePointer 1 5] ∧
    closeRowsCount (execute_request 1 2 "select 1" "null" ⟨none, 7⟩
        [⟨⟨some ⟨5, "boom"⟩, 0, 0, ⟨0, ""⟩, ⟨0, ""⟩⟩, [], ⟨none, 'N'⟩⟩] ⟨none⟩).1 = 0 :=
  ⟨rfl, rfl, rfl⟩

/-- C9 counterexample: after a fully successful load, create_connection
aborts (CString::new panics) on a parameter string holding an interior NUL
byte instead of returning a typed failure, so invoking a wrapper before
load is not the only fatal precondition violation. -/
theorem post_load_abort_on_nul_counterexample :
    go_create_connection_wrapper fullRegistry 1 "1.0" "tdwm\x00x" ⟨none, 4⟩ = none := rfl

/-- C9 amended: for every wrapped entry point, a native-reported error is
converted to a typed failure returned to the immediate caller, carrying the
message and freeing the error buffer, and the wrapper does not abort on it;
once load published the symbols and the text inputs are NUL-free, no
wrapper invocation aborts at all; the fatal precondition violations, which
abort instead of returning an error, are invoking a wrapper before its
symbols were published (every wrapper aborts on the empty registry) and
passing a text input holding an interior NUL byte (the text wrappers abort
even on a loaded registry). -/
theorem native_errors_typed_failures_abort_cases (reg : RegistryState)
    (uLog hdl : Nat) (s t : String) (hs : hasNul s = false) (ht : hasNul t = false)
    (c1 c2 c3 c4 c5 c6 c7 c8 c9 c10 c11 : Nat)
    (h1 : reg.goCombineJSON = some c1) (h2 : reg.goParseParams = some c2)
    (h3 : reg.goCreateConnection = some c3) (h4 : reg.goCloseConnection = some c4)
    (h5 : reg.goCancelRequest = some c5) (h6 : reg.rustgoCreateRows = some c6)
    (h7 : reg.rustgoResultMetaData = some c7) (h8 : reg.rustgoFetchRow = some c8)
    (h9 : reg.goNextResult = some c9) (h10 : reg.goCloseRows = some c10)
    (h11 : reg.goFreePointer = some c11) :
    ((∀ (resp : CombineJSONResp) b, resp.error = some b →
        go_combine_json_wrapper reg s t resp = some (Except.error b.content,
          [NativeCall.combineJSON s t, NativeCall.freePointer 0 b.id])) ∧
      (∀ resp, (go_combine_json_wrapper reg s t resp).isSome = true) ∧
      (∀ resp, go_combine_json_wrapper emptyRegistry s t resp = none) ∧
      (∀ (u : String), hasNul u = true →
        ∀ resp, go_combine_json_wrapper reg u t resp = none)) ∧
    ((∀ (resp : ParseParamsResp) b, resp.error = some b →
        go_parse_params_wrapper reg s resp = some (Except.error b.content,
          [NativeCall.parseParams s, NativeCall.freePointer resp.log b.id])) ∧
      (∀ resp, (go_parse_params_wrapper reg s resp).isSome = true) ∧
      (∀ resp, go_parse_params_wrapper emptyRegistry s resp = none) ∧
      (∀ (u : String), hasNul u = true →
        ∀ resp, go_parse_params_wrapper reg u resp = none)) ∧
    ((∀ (resp : CreateConnectionResp) b, resp.error = some b →
        go_create_connection_wrapper reg uLog s t resp = some (Except.error b.content,
          [NativeCall.createConnection uLog s t, NativeCall.freePointer uLog b.id])) ∧
      (∀ resp, (go_create_connection_wrapper reg uLog s t resp).isSome = true) ∧
      (∀ resp, go_create_connection_wrapper emptyRegistry uLog s t resp = none) ∧
      (∀ (u : String), hasNul u = true →
        ∀ resp, go_create_connection_wrapper reg uLog u t resp = none)) ∧
    ((∀ (resp : ErrorOnlyResp) b, resp.error = some b →
        go_close_connection_wrapper reg uLog hdl resp = some (Except.error b.content,
          [NativeCall.closeConnection uLog hdl, NativeCall.freePointer uLog b.id])) ∧
      (∀ resp, (go_close_connection_wrapper reg uLog hdl resp).isSome = true) ∧
      (∀ resp, go_close_connection_wrapper emptyRegistry uLog hdl resp = none)) ∧
    ((∀ (resp : ErrorOnlyResp) b, resp.error = some b →
        go_cancel_request_wrapper reg uLog hdl resp = some (Except.error b.content,
          [NativeCall.cancelRequest uLog hdl, NativeCall.freePointer uLog b.id])) ∧
      (∀ resp, (go_cancel_request_wrapper reg uLog hdl resp).isSome = true) ∧
      (∀ resp, go_cancel_request_wrapper emptyRegistry uLog hdl resp = none)) ∧
    ((∀ (resp : CreateRowsResp) b, resp.error = some b →
        rustgo_create_rows_wrapper reg uLog hdl s t resp = some (Except.error b.content,
          [NativeCall.createRows uLog hdl s t, NativeCall.freePointer uLog b.id])) ∧
      (∀ resp, (rustgo_create_rows_wrapper reg uLog hdl s t resp).isSome = true) ∧
      (∀ resp, rustgo_create_rows_wrapper emptyRegistry uLog hdl s t resp = none) ∧
      (∀ (u : String), hasNul u = true →
        ∀ resp, rustgo_create_rows_wrapper reg uLog hdl u t resp = none)) ∧
    ((∀ (resp : ResultMetaDataResp) b, resp.error = some b →
        rustgo_result_metadata_wrapper reg uLog hdl resp = some (Except.error b.content,
          [NativeCall.resultMetaData uLog hdl, NativeCall.freePointer uLog b.id])) ∧
      (∀ resp, (rustgo_result_metadata_wrapper reg uLog hdl resp).isSome = true) ∧
      (∀ resp, rustgo_result_metadata_wrapper emptyRegistry uLog hdl resp = none)) ∧
    ((∀ (resp : FetchRowResp) b, resp.error = some b →
        rustgo_fetch_row_wrapper reg uLog hdl resp = some (Except.error b.content,
          [NativeCall.fetchRow uLog hdl, NativeCall.freePointer uLog b.id])) ∧
      (∀ resp, (rustgo_fetch_row_wrapper reg uLog hdl resp).isSome = true) ∧
      (∀ resp, rustgo_fetch_row_wrapper emptyRegistry uLog hdl resp = none)) ∧
    ((∀ (resp : NextResultResp) b, resp.error = some b →
        go_next_result_wrapper reg uLog hdl resp = some (Except.error b.content,
          [NativeCall.nextResult uLog hdl, NativeCall.freePointer uLog b.id])) ∧
      (∀ resp, (go_next_result_wrapper reg uLog hdl resp).isSome = true) ∧
      (∀ resp, go_next_result_wrapper emptyRegistry uLog hdl resp = none)) ∧
    ((∀ (resp : ErrorOnlyResp) b, resp.error = some b →
        go_close_rows_wrapper reg uLog hdl resp = some (Except.error b.content,
          [NativeCall.closeRows uLog hdl, NativeCall.freePointer uLog b.id])) ∧
      (∀ resp, (go_close_rows_wrapper reg uLog hdl resp).isSome = true) ∧
      (∀ resp, go_close_rows_wrapper emptyRegistry uLog hdl resp = none)) ∧
    ((∀ ptr, go_free_pointer_wrapper reg uLog ptr =
        some [NativeCall.freePointer uLog ptr]) ∧
      (∀ ptr, go_free_pointer_wrapper emptyRegistry uLog ptr = none)) := by
  refine ⟨⟨?_, ?_, ?_, ?_⟩, ⟨?_, ?_, ?_, ?_⟩, ⟨?_, ?_, ?_, ?_⟩, ⟨?_, ?_, ?_⟩,
    ⟨?_, ?_, ?_⟩, ⟨?_, ?_, ?_, ?_⟩, ⟨?_, ?_, ?_⟩, ⟨?_, ?_, ?_⟩, ⟨?_, ?_, ?_⟩,
    ⟨?_, ?_, ?_⟩, ⟨?_, ?_⟩⟩
  · intro resp b hb
    simp [go_combine_json_wrapper, go_combine_json_body, cstringNew, hs, ht, h1, h11, hb]
  · intro resp
    simp [go_combine_json_wrapper, cstringNew, hs, ht, h1, h11]
  · intro resp
    simp [go_combine_json_wrapper, cstringNew, hs, ht, emptyRegistry]
  · intro u hu resp
    simp [go_combine_json_wrapper, cstringNew, hu]
  · intro resp b hb
    simp [go_parse_params_wrapper, go_parse_params_body, cstringNew, hs, h2, h11, hb]
  · intro resp
    cases hre : resp.error <;>
      simp [go_parse_params_wrapper, cstringNew, hs, h2, h11, hre]
  · intro resp
    simp [go_parse_params_wrapper, cstringNew, hs, emptyRegistry]
  · intro u hu resp
    simp [go_parse_params_wrapper, cstringNew, hu]
  · intro resp b hb
    simp [go_create_connection_wrapper, go_create_connection_body, cstringNew, hs, ht,
      h3, h11, hb]
  · intro resp
    cases hre : resp.error <;>
      simp [go_create_connection_wrapper, cstringNew, hs, ht, h3, h11, hre]
  · intro resp
    simp [go_create_connection_wrapper, cstringNew, hs, ht, emptyRegistry]
  · intro u hu resp
    simp [go_create_connection_wrapper, cstringNew, hu]
  · intro resp b hb
    simp [go_close_connection_wrapper, go_close_connection_body, h4, h11, hb]
  · intro resp
    cases hre : resp.error <;>
      simp [go_close_connection_wrapper, h4, h11, hre]
  · intro resp
    simp [go_close_connection_wrapper, emptyRegistry]
  · intro resp b hb
    simp [go_cancel_request_wrapper, go_cancel_request_body, h5, h11, hb]
  · intro resp
    cases hre : resp.error <;>
      simp [go_cancel_request_wrapper, h5, h11, hre]
  · intro resp
    simp [go_cancel_request_wrapper, emptyRegistry]
  · intro resp b hb
    simp [rustgo_create_rows_wrapper, rustgo_create_rows_body, cstringNew, hs, ht,
      h6, h11, hb]
  · intro resp
    cases hre : resp.error <;>
      simp [rustgo_create_rows_wrapper, cstringNew, hs, ht, h6, h11, hre]
  · intro resp
    simp [rustgo_create_rows_wrapper, cstringNew, hs, ht, emptyRegistry]
  · intro u hu resp
    simp [rustgo_create_rows_wrapper, cstringNew, hu]
  · intro resp b hb
    simp [rustgo_result_metadata_wrapper, rustgo_result_metadata_body, h7, h11, hb]
  · intro resp
    simp [rustgo_result_metadata_wrapper, h7, h11]
  · intro resp
    simp [rustgo_result_metadata_wrapper, emptyRegistry]
  · intro resp b hb
    simp [rustgo_fetch_row_wrapper, rustgo_fetch_row_body, h8, h11, hb]
  · intro resp
    cases hre : resp.error with
    | some b => simp [rustgo_fetch_row_wrapper, h8, h11, hre]
    | none =>
      cases hrc : resp.columnValues <;>
        simp [rustgo_fetch_row_wrapper, h8, h11, hre, hrc]
  · intro resp
    simp [rustgo_fetch_row_wrapper, emptyRegistry]
  · intro resp b hb
    simp [go_next_result_wrapper, go_next_result_body, h9, h11, hb]
  · intro resp
    cases hre : resp.error <;>
      simp [go_next_result_wrapper, h9, h11, hre]
  · intro resp
    simp [go_next_result_wrapper, emptyRegistry]
  · intro resp b hb
    simp [go_close_rows_wrapper, go_close_rows_body, h10, h11, hb]
  · intro resp
    cases hre : resp.error <;>
      simp [go_close_rows_wrapper, h10, h11, hre]
  · intro resp
    simp [go_close_rows_wrapper, emptyRegistry]
  · intro ptr
    simp [go_free_pointer_wrapper, h11]
  · intro ptr
    simp [go_free_pointer_wrapper, emptyRegistry]

/-- Witness for C9 amended: with the loaded registry a native-reported
error from parseParams comes back as a typed failure (freed once with the
log out-parameter), a closeRows error does not abort, and the same
nextResult call aborts on the empty registry. -/
theorem native_errors_typed_failures_witness :
    go_parse_params_wrapper fullRegistry "[1]" ⟨some ⟨3, "oops"⟩, 5⟩ =
      some (Except.error "oops",
        [NativeCall.parseParams "[1]", NativeCall.freePointer 5 3]) ∧
    (go_close_rows_wrapper fullRegistry 7 9 ⟨some ⟨4, "late"⟩⟩).isSome = true ∧
    go_next_result_wrapper emptyRegistry 7 9 ⟨none, 'Y'⟩ = none := by
  refine ⟨?_, ?_, ?_⟩
  · exact (native_errors_typed_failures_abort_cases fullRegistry 7 9 "[1]" "[2]"
      (by decide) (by decide) 1 2 3 4 5 6 7 8 9 10 11
      rfl rfl rfl rfl rfl rfl rfl rfl rfl rfl rfl).2.1.1 ⟨some ⟨3, "oops"⟩, 5⟩ ⟨3, "oops"⟩ rfl
  · exact (native_errors_typed_failures_abort_cases fullRegistry 7 9 "[1]" "[2]"
      (by decide) (by decide) 1 2 3 4 5 6 7 8 9 10 11
      rfl rfl rfl rfl rfl rfl rfl rfl rfl rfl rfl).2.2.2.2.2.2.2.2.2.1.2.1 ⟨some ⟨4, "late"⟩⟩
  · exact (native_errors_typed_failures_abort_cases fullRegistry 7 9 "[1]" "[2]"
      (by decide) (by decide) 1 2 3 4 5 6 7 8 9 10 11
      rfl rfl rfl rfl rfl rfl rfl rfl rfl rfl rfl).2.2.2.2.2.2.2.2.1.2.2 ⟨none, 'Y'⟩

/-- C2 counterexample: with goCombineJSON resolving and goParseParams
missing, load fails with the link error naming goParseParams, yet the
symbol resolved earlier in the same failed attempt stays published: the
registry is not left exactly as it was before the call. -/
theorem failed_link_keeps_earlier_symbols :
    load_driver envMissingParseParams "/opt/teradata" linuxPlat emptyRegistry =
      (Except.error "Could not link to function goParseParams: undefined symbol",
       { emptyRegistry with library := some 50, goCombineJSON := some 1 }) ∧
    ({ emptyRegistry with library := some 50, goCombineJSON := some 1 } : RegistryState) ≠
      emptyRegistry :=
  ⟨rfl, by decide⟩
/-- C2 amended: with an empty registry, when entry-point resolution fails,
load_driver returns the link error naming the first unresolvable entry
point and the failing entry point and all later ones stay unpublished, but
every symbol resolved earlier in the same failed attempt remains published
in the registry (together with the library handle): the registry is not
left as it was before the call. -/
theorem load_link_error_keeps_earlier_publications (env : LoadEnv)
    (libDir : String) (plat : Platform) (l : Nat)
    (hopen : env.openLib libDir (libFileName plat) = Except.ok l) :
    (∀ e,
      env.resolve "goCombineJSON" = Except.error e →
      load_driver env libDir plat emptyRegistry =
        (Except.error ("Could not link to function goCombineJSON: " ++ e),
         { emptyRegistry with library := some l })) ∧
    (∀ f1 e,
      env.resolve "goCombineJSON" = Except.ok f1 →
      env.resolve "goParseParams" = Except.error e →
      load_driver env libDir plat emptyRegistry =
        (Except.error ("Could not link to function goParseParams: " ++ e),
         { emptyRegistry with library := some l, goCombineJSON := some f1 })) ∧
    (∀ f1 f2 e,
      env.resolve "goCombineJSON" = Except.ok f1 →
      env.resolve "goParseParams" = Except.ok f2 →
      env.resolve "goCreateConnection" = Except.error e →
      load_driver env libDir plat emptyRegistry =
        (Except.error ("Could not link to function goCreateConnection: " ++ e),
         { emptyRegistry with library := some l, goCombineJSON := some f1, goParseParams := some f2 })) ∧
    (∀ f1 f2 f3 e,
      env.resolve "goCombineJSON" = Except.ok f1 →
      env.resolve "goParseParams" = Except.ok f2 →
      env.resolve "goCreateConnection" = Except.ok f3 →
      env.resolve "goCloseConnection" = Except.error e →
      load_driver env libDir plat emptyRegistry =
        (Except.error ("Could not link to function goCloseConnection: " ++ e),
         { emptyRegistry with library := some l, goCombineJSON := some f1, goParseParams := some f2, goCreateConnection := some f3 })) ∧
    (∀ f1 f2 f3 f4 e,
      env.resolve "goCombineJSON" = Except.ok f1 →
      env.resolve "goParseParams" = Except.ok f2 →
      env.resolve "goCreateConnection" = Except.ok f3 →
      env.resolve "goCloseConnection" = Except.ok f4 →
      env.resolve "goCancelRequest" = Except.error e →
      load_driver env libDir plat emptyRegistry =
        (Except.error ("Could not link to function goCancelRequest: " ++ e),
         { emptyRegistry with library := some l, goCombineJSON := some f1, goParseParams := some f2, goCreateConnection := some f3, goCloseConnection := some f4 })) ∧
    (∀ f1 f2 f3 f4 f5 e,
      env.resolve "goCombineJSON" = Except.ok f1 →
      env.resolve "goParseParams" = Except.ok f2 →
      env.resolve "goCreateConnection" = Except.ok f3 →
      env.resolve "goCloseConnection" = Except.ok f4 →
      env.resolve "goCancelRequest" = Except.ok f5 →
      env.resolve "rustgoCreateRows" = Except.error e →
      load_driver env libDir plat emptyRegistry =
        (Except.error ("Could not link to function rustgoCreateRows: " ++ e),
         { emptyRegistry with library := some l, goCombineJSON := some f1, goParseParams := some f2, goCreateConnection := some f3, goCloseConnection := some f4, goCancelRequest := some f5 })) ∧
    (∀ f1 f2 f3 f4 f5 f6 e,
      env.resolve "goCombineJSON" = Except.ok f1 →
      env.resolve "goParseParams" = Except.ok f2 →
      env.resolve "goCreateConnection" = Except.ok f3 →
      env.resolve "goCloseConnection" = Except.ok f4 →
      env.resolve "goCancelRequest" = Except.ok f5 →
      env.resolve "rustgoCreateRows" = Except.ok f6 →
      env.resolve "rustgoResultMetaData" = Except.error e →
      load_driver env libDir plat emptyRegistry =
        (Except.error ("Could not link to function rustgoResultMetaData: " ++ e),
         { emptyRegistry with library := some l, goCombineJSON := some f1, goParseParams := some f2, goCreateConnection := some f3, goCloseConnection := some f4, goCancelRequest := some f5, rustgoCreateRows := some f6 })) ∧
    (∀ f1 f2 f3 f4 f5 f6 f7 e,
      env.resolve "goCombineJSON" = Except.ok f1 →
      env.resolve "goParseParams" = Except.ok f2 →
      env.resolve "goCreateConnection" = Except.ok f3 →
      env.resolve "goCloseConnection" = Except.ok f4 →
      env.resolve "goCancelRequest" = Except.ok f5 →
      env.resolve "rustgoCreateRows" = Except.ok f6 →
      env.resolve "rustgoResultMetaData" = Except.ok f7 →
      env.resolve "rustgoFetchRow" = Except.error e →
      load_driver env libDir plat emptyRegistry =
        (Except.error ("Could not link to function rustgoFetchRow: " ++ e),
         { emptyRegistry with library := some l, goCombineJSON := some f1, goParseParams := some f2, goCreateConnection := some f3, goCloseConnection := some f4, goCancelRequest := some f5, rustgoCreateRows := some f6, rustgoResultMetaData := some f7 })) ∧
    (∀ f1 f2 f3 f4 f5 f6 f7 f8 e,
      env.resolve "goCombineJSON" = Except.ok f1 →
      env.resolve "goParseParams" = Except.ok f2 →
      env.resolve "goCreateConnection" = Except.ok f3 →
      env.resolve "goCloseConnection" = Except.ok f4 →
      env.resolve "goCancelRequest" = Except.ok f5 →
      env.resolve "rustgoCreateRows" = Except.ok f6 →
      env.resolve "rustgoResultMetaData" = Except.ok f7 →
      env.resolve "rustgoFetchRow" = Except.ok f8 →
      env.resolve "goNextResult" = Except.error e →
      load_driver env libDir plat emptyRegistry =
        (Except.error ("Could not link to function goNextResult: " ++ e),
         { emptyRegistry with library := some l, goCombineJSON := some f1, goParseParams := some f2, goCreateConnection := some f3, goCloseConnection := some f4, goCancelRequest := some f5, rustgoCreateRows := some f6, rustgoResultMetaData := some f7, rustgoFetchRow := some f8 })) ∧
    (∀ f1 f2 f3 f4 f5 f6 f7 f8 f9 e,
      env.resolve "goCombineJSON" = Except.ok f1 →
      env.resolve "goParseParams" = Except.ok f2 →
      env.resolve "goCreateConnection" = Except.ok f3 →
      env.resolve "goCloseConnection" = Except.ok f4 →
      env.resolve "goCancelRequest" = Except.ok f5 →
      env.resolve "rustgoCreateRows" = Except.ok f6 →
      env.resolve "rustgoResultMetaData" = Except.ok f7 →
      env.resolve "rustgoFetchRow" = Except.ok f8 →
      env.resolve "goNextResult" = Except.ok f9 →
      env.resolve "goCloseRows" = Except.error e →
      load_driver env libDir plat emptyRegistry =
        (Except.error ("Could not link to function goCloseRows: " ++ e),
         { emptyRegistry with library := some l, goCombineJSON := some f1, goParseParams := some f2, goCreateConnection := some f3, goCloseConnection := some f4, goCancelRequest := some f5, rustgoCreateRows := some f6, rustgoResultMetaData := some f7, rustgoFetchRow := some f8, goNextResult := some f9 })) ∧
    (∀ f1 f2 f3 f4 f5 f6 f7 f8 f9 f10 e,
      env.resolve "goCombineJSON" = Except.ok f1 →
      env.resolve "goParseParams" = Except.ok f2 →
      env.resolve "goCreateConnection" = Except.ok f3 →
      env.resolve "goCloseConnection" = Except.ok f4 →
      env.resolve "goCancelRequest" = Except.ok f5 →
      env.resolve "rustgoCreateRows" = Except.ok f6 →
      env.resolve "rustgoResultMetaData" = Except.ok f7 →
      env.resolve "rustgoFetchRow" = Except.ok f8 →
      env.resolve "goNextResult" = Except.ok f9 →
      env.resolve "goCloseRows" = Except.ok f10 →
      env.resolve "goFreePointer" = Except.error e →
      load_driver env libDir plat emptyRegistry =
        (Except.error ("Could not link to function goFreePointer: " ++ e),
         { emptyRegistry with library := some l, goCombineJSON := some f1, goParseParams := some f2, goCreateConnection := some f3, goCloseConnection := some f4, goCancelRequest := some f5, rustgoCreateRows := some f6, rustgoResultMetaData := some f7, rustgoFetchRow := some f8, goNextResult := some f9, goCloseRows := some f10 })) := by
  refine ⟨?_, ?_, ?_, ?_, ?_, ?_, ?_, ?_, ?_, ?_, ?_⟩ <;>
    (intros; simp [load_driver, link1, trySet, emptyRegistry, hopen, *]; try rfl)

/-- Witness for C2 amended: with goParseParams missing, the second entry
point's link error is returned while the earlier goCombineJSON stays
published. -/
theorem load_link_error_keeps_earlier_witness :
    load_driver envMissingParseParams "/lib64" linuxPlat emptyRegistry =
      (Except.error ("Could not link to function goParseParams: " ++ "undefined symbol"),
       { emptyRegistry with library := some 50, goCombineJSON := some 1 }) :=
  (load_link_error_keeps_earlier_publications envMissingParseParams "/lib64" linuxPlat
    50 rfl).2.1 1 "undefined symbol" rfl rfl
